import Mathlib

/-!
Verification development for the SuperCourier mini ETL pipeline
(`de-code-snippet.py`).  The pandas data frames are embedded as lists of
typed records; machine floats are embedded as exact rationals; cells that
pandas would hold as `NaN` are embedded as `Option` values (`none` = NaN).
The library parser `pd.to_datetime(-, errors=coerce)` is abstracted as a
parameter of type `String → Option PDateTime` (`none` = `NaT`).
-/

namespace SuperCourier

/-! ### Data model and pipeline definitions (from the source), with
concrete fixtures and the store-level frame model -/

/-- Exact fraction arithmetic standing in for the float arithmetic of the
pipeline (all the pipeline's constants are short decimals, so the float
computations it performs are embedded as exact fractions).  The fraction is
kept unreduced; every operation below preserves a positive denominator, and
numeric comparison and numeric equality are by cross-multiplication. -/
structure Q where
  num : Int
  den : Int
  deriving DecidableEq, Inhabited, Repr

instance : OfNat Q n := ⟨⟨n, 1⟩⟩

instance : Mul Q := ⟨fun a b => ⟨a.num * b.num, a.den * b.den⟩⟩

instance : Add Q := ⟨fun a b => ⟨a.num * b.den + b.num * a.den, a.den * b.den⟩⟩

/-- Numeric strict order on fractions with positive denominators. -/
def Q.blt (a b : Q) : Bool := a.num * b.den < b.num * a.den

/-- Numeric equality on fractions with positive denominators. -/
def Q.eqv (a b : Q) : Prop := a.num * b.den = b.num * a.den

/-- A parsed pandas timestamp, reduced to the components the pipeline reads:
the calendar-date string produced by `strftime(%Y-%m-%d)`, the hour-of-day
(`dt.hour`, always in `0..23` for a valid datetime), and the day name
(`dt.day_name()`). -/
structure PDateTime where
  date : String
  hour : Fin 24
  dayName : String
  deriving DecidableEq, Inhabited, Repr

/-- A row of the SQLite `deliveries` table, as read by `SELECT * FROM deliveries`. -/
structure RawDelivery where
  delivery_id : Nat
  pickup_datetime : String
  package_type : String
  delivery_zone : String
  recipient_id : Nat
  deriving DecidableEq, Inhabited, Repr

/-- A row of the data frame returned by `extract_sqlite_data`:
`pickup_datetime` has been re-parsed with `errors=coerce` (so it is `none`
for a malformed timestamp), and the derived `pickup_date` / `pickup_hour`
columns have been added. -/
structure Delivery where
  delivery_id : Nat
  pickup_datetime : Option PDateTime
  package_type : String
  delivery_zone : String
  recipient_id : Nat
  pickup_date : Option String
  pickup_hour : String
  deriving DecidableEq, Inhabited, Repr

/-- The rendering of one entry of the `pickup_hour` column,
`df[pickup_datetime].dt.hour.astype(str)`.  pandas types the whole column
at once: when no entry is `NaT` the accessor column is integer dtype and
`astype(str)` renders `"14"`; when any entry is `NaT` the column is
promoted to float dtype, so `astype(str)` renders `"14.0"` for parsed rows
and `"nan"` for the `NaT` rows (a non-null string). -/
def hourCol (anyNaT : Bool) (d : Option PDateTime) : String :=
  match d with
  | none => "nan"
  | some dt => if anyNaT then toString dt.hour.val ++ ".0" else toString dt.hour.val

/-- `extract_sqlite_data`, starting from the raw SQLite rows.
`to_datetime` abstracts `pd.to_datetime(-, errors=coerce)`. -/
def extract_sqlite_data (to_datetime : String → Option PDateTime)
    (rows : List RawDelivery) : List Delivery :=
  let parsed := rows.map (fun r => (r, to_datetime r.pickup_datetime))
  let anyNaT := parsed.any (fun p => p.2.isNone)
  parsed.map (fun p =>
    { delivery_id := p.1.delivery_id
      pickup_datetime := p.2
      package_type := p.1.package_type
      delivery_zone := p.1.delivery_zone
      recipient_id := p.1.recipient_id
      pickup_date := p.2.map (fun dt => dt.date)
      pickup_hour := hourCol anyNaT p.2 })

/-- The weather data as loaded from JSON: an association list from date
strings to association lists from hour strings to conditions (JSON object
key order is preserved). -/
abbrev Weather := List (String × List (String × String))

/-- The flattened `weather_records` list built inside `enrich_with_weather`:
one `(pickup_date, pickup_hour, WeatherCondition)` record per (date, hour)
entry of the weather data. -/
def weather_records (weather_data : Weather) : List (String × String × String) :=
  weather_data.flatMap (fun p => p.2.map (fun q => (p.1, q.1, q.2)))

/-- The composite (date, hour) keys of the flattened weather records. -/
def weather_keys (weather_data : Weather) : List (String × String) :=
  (weather_records weather_data).map (fun wr => (wr.1, wr.2.1))

/-- A row of the merged frame produced by `pd.merge(df, weather_df, ...)`:
a `Delivery` row extended with the (possibly NaN) `WeatherCondition`. -/
structure Enriched where
  delivery_id : Nat
  pickup_datetime : Option PDateTime
  package_type : String
  delivery_zone : String
  recipient_id : Nat
  pickup_date : Option String
  pickup_hour : String
  WeatherCondition : Option String
  deriving DecidableEq, Inhabited, Repr

/-- Extend a delivery row with a weather condition cell. -/
def withWeather (d : Delivery) (c : Option String) : Enriched :=
  { delivery_id := d.delivery_id
    pickup_datetime := d.pickup_datetime
    package_type := d.package_type
    delivery_zone := d.delivery_zone
    recipient_id := d.recipient_id
    pickup_date := d.pickup_date
    pickup_hour := d.pickup_hour
    WeatherCondition := c }

/-- Whether a delivery row's merge key equals a weather record's key.
A null (`NaT`-derived) `pickup_date` matches no weather record, since the
weather frame's key columns contain no nulls. -/
def rowMatches (d : Delivery) (wr : String × String × String) : Bool :=
  match d.pickup_date with
  | some ds => ds == wr.1 && d.pickup_hour == wr.2.1
  | none => false

/-- `enrich_with_weather`: flatten the weather mapping to records, then
left-merge on `(pickup_date, pickup_hour)`.  As with `pd.merge(..., how=left)`,
every left row is kept: with no matching weather record it appears once with
`WeatherCondition` null, and with `k` matching records it appears `k` times. -/
def enrich_with_weather (df : List Delivery) (weather_data : Weather) : List Enriched :=
  let wrecs := weather_records weather_data
  df.flatMap (fun row =>
    let ms := wrecs.filter (fun wr => rowMatches row wr)
    if ms.isEmpty then [withWeather row none]
    else ms.map (fun wr => withWeather row (some wr.2.2)))

/-- The `parcel` factor dict (Small 1, Medium 1.2, Large 1.5, X-Large 2,
Special 2.5); `.map(parcel)` yields NaN (`none`) off the dict. -/
def parcel : String → Option Q
  | "Small" => some ⟨1, 1⟩
  | "Medium" => some ⟨12, 10⟩
  | "Large" => some ⟨15, 10⟩
  | "X-Large" => some ⟨2, 1⟩
  | "Special" => some ⟨25, 10⟩
  | _ => none

/-- The `zone` factor dict (Urban 1.2, Suburban 1, Rural 1.3, Industrial 0.9,
Shopping Center 1.4). -/
def zone : String → Option Q
  | "Urban" => some ⟨12, 10⟩
  | "Suburban" => some ⟨1, 1⟩
  | "Rural" => some ⟨13, 10⟩
  | "Industrial" => some ⟨9, 10⟩
  | "Shopping Center" => some ⟨14, 10⟩
  | _ => none

/-- The `weather` factor dict (Sunny 1, Cloudy 1.05, Rainy 1.2, Windy 1.1,
Snowy 1.8, Foggy 1.3). -/
def weather : String → Option Q
  | "Sunny" => some ⟨1, 1⟩
  | "Cloudy" => some ⟨105, 100⟩
  | "Rainy" => some ⟨12, 10⟩
  | "Windy" => some ⟨11, 10⟩
  | "Snowy" => some ⟨18, 10⟩
  | "Foggy" => some ⟨13, 10⟩
  | _ => none

/-- NaN-propagating product of two cells, as in pandas column arithmetic. -/
def nanMul (a b : Option Q) : Option Q :=
  match a, b with
  | some x, some y => some (x * y)
  | _, _ => none

/-- `WeatherCondition.map(weather).fillna(1)`: the mapped factor, with NaN
(null condition, or a condition outside the dict) filled with the neutral 1. -/
def weatherFill (wc : Option String) : Q :=
  ((wc.bind weather).getD ⟨1, 1⟩)

/-- Round to 2 decimal places, ties to even — `np.round(x, 2)` /
`Series.round(2)` on the embedded fraction (assuming a positive
denominator, which every operation of the pipeline preserves). -/
def round2 (q : Q) : Q :=
  let xn := q.num * 100
  let n : Int := Int.fdiv xn q.den
  let r2 := 2 * (xn - n * q.den)
  ⟨if r2 < q.den then n else if r2 > q.den then n + 1
    else if n % 2 = 0 then n else n + 1, 100⟩

/-- A row of `new_df` in `transform_data` after all derived columns have been
assigned.  Columns that pandas can hold as NaN are `Option`-typed. -/
structure Scored where
  delivery_id : Nat
  pickup_datetime : Option PDateTime
  package_type : String
  delivery_zone : String
  recipient_id : Nat
  pickup_date : Option String
  pickup_hour : String
  WeatherCondition : Option String
  Distance : Q
  Actual_Delivery_Time : Q
  Weekday : Option String
  Base_Theoretical_Time : Q
  Adjustment : Option Q
  Adjusted_Time : Option Q
  Delay_Threshold : Option Q
  Status : String
  deriving DecidableEq, Inhabited, Repr

/-- The per-row column computations of `transform_data` (lines 214-247).
`dist i` models the row's draw of `np.random.uniform(1, 50)` and `rate i`
the row's draw of `np.random.uniform(0.8, 1.5)`, indexed by row position. -/
def score (dist rate : Nat → Q) (i : Nat) (e : Enriched) : Scored :=
  let d := round2 (dist i)
  let adt := round2 (d * rate i + 30)
  let base := (30 : Q) + d * ⟨8, 10⟩
  let adj := nanMul (nanMul (parcel e.package_type) (zone e.delivery_zone))
    (some (weatherFill e.WeatherCondition))
  let adjT := adj.map (fun a => base * a)
  let thr := adjT.map (fun t => t * ⟨12, 10⟩)
  { delivery_id := e.delivery_id
    pickup_datetime := e.pickup_datetime
    package_type := e.package_type
    delivery_zone := e.delivery_zone
    recipient_id := e.recipient_id
    pickup_date := e.pickup_date
    pickup_hour := e.pickup_hour
    WeatherCondition := e.WeatherCondition
    Distance := d
    Actual_Delivery_Time := adt
    Weekday := e.pickup_datetime.map (fun dt => dt.dayName)
    Base_Theoretical_Time := base
    Adjustment := adj
    Adjusted_Time := adjT
    Delay_Threshold := thr
    Status :=
      match thr with
      | some t => if Q.blt t adt then "Delayed" else "On-time"
      | none => "On-time" }

/-- The fully scored frame: enrichment followed by the derived columns.
`np.where(adt > thr, Delayed, On-time)` yields `On-time` when the threshold
is NaN, since a NaN comparison is false. -/
def score_rows (df : List Delivery) (weather_data : Weather)
    (dist rate : Nat → Q) : List Scored :=
  (enrich_with_weather df weather_data).enum.map (fun p => score dist rate p.1 p.2)

/-- `dropna()` keeps a row iff none of its cells is NaN; only the
`Option`-typed columns can hold NaN. -/
def hasNoNull (s : Scored) : Bool :=
  s.pickup_datetime.isSome && s.pickup_date.isSome && s.WeatherCondition.isSome &&
    s.Weekday.isSome && s.Adjustment.isSome && s.Adjusted_Time.isSome &&
    s.Delay_Threshold.isSome

/-- A row of the final frame, projected to `needed_col` in order:
delivery_id, pickup_datetime, Weekday, pickup_date, pickup_hour,
package_type, Distance, delivery_zone, WeatherCondition,
Actual_Delivery_Time, Status. -/
structure FinalRow where
  delivery_id : Nat
  pickup_datetime : Option PDateTime
  Weekday : Option String
  pickup_date : Option String
  pickup_hour : String
  package_type : String
  Distance : Q
  delivery_zone : String
  WeatherCondition : Option String
  Actual_Delivery_Time : Q
  Status : String
  deriving DecidableEq, Inhabited, Repr

/-- `new_df[needed_col]`: project a scored row to the final column set. -/
def projectRow (s : Scored) : FinalRow :=
  { delivery_id := s.delivery_id
    pickup_datetime := s.pickup_datetime
    Weekday := s.Weekday
    pickup_date := s.pickup_date
    pickup_hour := s.pickup_hour
    package_type := s.package_type
    Distance := s.Distance
    delivery_zone := s.delivery_zone
    WeatherCondition := s.WeatherCondition
    Actual_Delivery_Time := s.Actual_Delivery_Time
    Status := s.Status }

/-- `transform_data`: enrich, compute the derived columns, `dropna()`,
then project to `needed_col`. -/
def transform_data (df_deliveries : List Delivery) (weather_data : Weather)
    (dist rate : Nat → Q) : List FinalRow :=
  ((score_rows df_deliveries weather_data dist rate).filter hasNoNull).map projectRow

/-- Direct nested lookup in the weather mapping: the value stored at
`weather_data[d][h]`, or `none` when the key is absent. -/
def weather_at (w : Weather) (d h : String) : Option String :=
  match w.find? (fun p => d == p.1) with
  | none => none
  | some p => (p.2.find? (fun q => h == q.1)).map (fun q => q.2)

/-- The weather value the mapping associates to a delivery row's key
(`none` for a null date key). -/
def weather_lookup (w : Weather) (row : Delivery) : Option String :=
  match row.pickup_date with
  | none => none
  | some d => weather_at w d row.pickup_hour

/-- A well-formed weather mapping: date keys are distinct and, per date,
hour keys are distinct (as for an object loaded from JSON). -/
def WeatherWF (w : Weather) : Prop :=
  (w.map Prod.fst).Nodup ∧ ∀ p ∈ w, (p.2.map Prod.fst).Nodup

instance (w : Weather) : Decidable (WeatherWF w) := by
  unfold WeatherWF
  infer_instance

/-- A concrete parse oracle: the behaviour of `pd.to_datetime(-, errors=coerce)`
on the three timestamp strings used in the fixtures (two valid timestamps of
Wednesday 2024-04-17, everything else malformed and coerced to `NaT`). -/
def exToDatetime : String → Option PDateTime :=
  fun s =>
    if s == "2024-04-17 14:30:00" then some (PDateTime.mk "2024-04-17" 14 "Wednesday")
    else if s == "2024-04-17 09:00:00" then some (PDateTime.mk "2024-04-17" 9 "Wednesday")
    else none

/-- A delivery with a valid timestamp and valid categories. -/
def exRaw1 : RawDelivery :=
  { delivery_id := 1, pickup_datetime := "2024-04-17 14:30:00",
    package_type := "Small", delivery_zone := "Suburban", recipient_id := 7 }

/-- A second delivery with a valid timestamp and valid categories. -/
def exRaw2 : RawDelivery :=
  { delivery_id := 2, pickup_datetime := "2024-04-17 09:00:00",
    package_type := "Medium", delivery_zone := "Urban", recipient_id := 8 }

/-- A delivery whose timestamp does not parse. -/
def exRawBad : RawDelivery :=
  { delivery_id := 3, pickup_datetime := "not-a-date",
    package_type := "Large", delivery_zone := "Rural", recipient_id := 9 }

/-- A delivery whose package type is outside the enumeration. -/
def exRawUnknown : RawDelivery :=
  { delivery_id := 4, pickup_datetime := "2024-04-17 14:30:00",
    package_type := "Unknown", delivery_zone := "Urban", recipient_id := 5 }

/-- A weather mapping shaped like `generate_weather_data`: for one date,
one condition per hour key `str(h)` for `h` in `range(24)`. -/
def exWeather : Weather :=
  [("2024-04-17", (List.range 24).map
    (fun h => (toString h, if h == 14 then "Rainy" else "Sunny")))]

/-- A weather mapping with no entry at hour "14": a join miss for `exRaw1`. -/
def exWeatherMiss : Weather := [("2024-04-17", [("13", "Sunny")])]

/-- A constant draw for `np.random.uniform(1, 50)`. -/
def exDist : Nat → Q := fun _ => 10

/-- A constant draw for `np.random.uniform(0.8, 1.5)`. -/
def exRate : Nat → Q := fun _ => 1

/-- The extracted frame for a batch in which exactly one of three
timestamps is malformed. -/
def exDf9 : List Delivery :=
  extract_sqlite_data exToDatetime [exRaw1, exRaw2, exRawBad]

/-- The left-join weather value a delivery row receives: the first flattened
weather record whose key matches the row's key. -/
def merge_lookup (w : Weather) (row : Delivery) : Option String :=
  ((weather_records w).find? (rowMatches row)).map (fun wr => wr.2.2)

/-- The extracted frame for a batch of two valid deliveries. -/
def exDf2 : List Delivery := extract_sqlite_data exToDatetime [exRaw1, exRaw2]

/-- The extracted frame for a batch containing just the Medium/Urban delivery. -/
def exDfMedium : List Delivery := extract_sqlite_data exToDatetime [exRaw2]

/-- The single scored row of that batch (Medium, Urban, Sunny). -/
def exScoredMedium : Scored := (score_rows exDfMedium exWeather exDist exRate).headI

/-- The final frame of the Medium/Urban batch, and its single row. -/
def exFinalMedium : FinalRow := (transform_data exDfMedium exWeather exDist exRate).headI

/-- The extracted frame and scored row for the join-miss batch. -/
def exDfMiss : List Delivery := extract_sqlite_data exToDatetime [exRaw1]

/-- The scored row of the join-miss batch. -/
def exScoredMiss : Scored := (score_rows exDfMiss exWeatherMiss exDist exRate).headI

/-- The extracted frame for the batch with an unknown package type. -/
def exDfUnknown : List Delivery := extract_sqlite_data exToDatetime [exRawUnknown]

/-- The scored row of the unknown-package batch. -/
def exScoredUnknown : Scored := (score_rows exDfUnknown exWeather exDist exRate).headI

/-- A data-frame cell: NaN, a string, a number, or a timestamp. -/
inductive Cell where
  | null : Cell
  | str : String → Cell
  | num : Q → Cell
  | dt : PDateTime → Cell
  deriving DecidableEq, Inhabited, Repr

/-- A row of an untyped frame: column name to cell. -/
abbrev DRow := List (String × Cell)

/-- An untyped data frame. -/
abbrev DFrame := List DRow

/-- The heap of frame objects, indexed by references below `next`. -/
structure Store where
  mem : Nat → DFrame
  next : Nat

/-- Read the frame at a reference. -/
def Store.read (st : Store) (ref : Nat) : DFrame := st.mem ref

/-- Mutate the frame at a reference (a `new_df[col] = ...` statement). -/
def Store.write (st : Store) (ref : Nat) (f : DFrame) : Store :=
  ⟨fun i => if i = ref then f else st.mem i, st.next⟩

/-- Allocate a fresh frame object (a pandas call returning a new frame). -/
def Store.alloc (st : Store) (f : DFrame) : Store × Nat :=
  (⟨fun i => if i = st.next then f else st.mem i, st.next + 1⟩, st.next)

/-- Read a cell of a row; a missing column reads as NaN. -/
def getCol (row : DRow) (c : String) : Cell :=
  ((row.find? (fun p => p.1 == c)).map (fun p => p.2)).getD Cell.null

/-- Set (or append) one column cell of a row. -/
def setVal (row : DRow) (c : String) (v : Cell) : DRow :=
  if row.any (fun p => p.1 == c) then
    row.map (fun p => if p.1 == c then (c, v) else p)
  else row ++ [(c, v)]

/-- Assign a whole column of a frame. -/
def setCol (f : DFrame) (c : String) (vals : List Cell) : DFrame :=
  List.zipWith (fun row v => setVal row c v) f vals

/-- NaN-propagating product of two cells. -/
def cellMul (a b : Cell) : Cell :=
  match a, b with
  | Cell.num x, Cell.num y => Cell.num (x * y)
  | _, _ => Cell.null

/-- NaN-propagating product with a scalar on the right. -/
def cellScale (a : Cell) (k : Q) : Cell :=
  match a with
  | Cell.num x => Cell.num (x * k)
  | _ => Cell.null

/-- NaN-propagating sum with a scalar on the right (`x + 30`). -/
def cellAddConst (a : Cell) (k : Q) : Cell :=
  match a with
  | Cell.num x => Cell.num (x + k)
  | _ => Cell.null

/-- NaN-propagating sum with a scalar on the left (`30 + x`). -/
def cellConstAdd (k : Q) (a : Cell) : Cell :=
  match a with
  | Cell.num x => Cell.num (k + x)
  | _ => Cell.null

/-- `Series.round(2)` on one cell. -/
def cellRound2 (a : Cell) : Cell :=
  match a with
  | Cell.num x => Cell.num (round2 x)
  | _ => Cell.null

/-- `.map(dict)` on one cell: NaN off the dict or on a non-string cell. -/
def cellMapDict (m : String → Option Q) (a : Cell) : Cell :=
  match a with
  | Cell.str s =>
    match m s with
    | some q => Cell.num q
    | none => Cell.null
  | _ => Cell.null

/-- `.fillna(1)` on one cell. -/
def cellFill1 (a : Cell) : Cell :=
  match a with
  | Cell.null => Cell.num ⟨1, 1⟩
  | _ => a

/-- `dt.day_name()` on one cell (NaN for `NaT`). -/
def cellDayName (a : Cell) : Cell :=
  match a with
  | Cell.dt d => Cell.str d.dayName
  | _ => Cell.null

/-- `np.where(adt > thr, Delayed, On-time)` on one row's cells; a NaN
comparison is false, giving On-time. -/
def cellStatus (adt thr : Cell) : Cell :=
  match adt, thr with
  | Cell.num x, Cell.num t => if Q.blt t x then Cell.str "Delayed" else Cell.str "On-time"
  | _, _ => Cell.str "On-time"

/-- The projected column list of `transform_data`. -/
def needed_col : List String :=
  ["delivery_id", "pickup_datetime", "Weekday", "pickup_date", "pickup_hour",
   "package_type", "Distance", "delivery_zone", "WeatherCondition",
   "Actual_Delivery_Time", "Status"]

/-- The flattened weather frame built inside `enrich_with_weather`. -/
def weather_df (w : Weather) : DFrame :=
  (weather_records w).map (fun wr =>
    [("pickup_date", Cell.str wr.1), ("pickup_hour", Cell.str wr.2.1),
     ("WeatherCondition", Cell.str wr.2.2)])

/-- `pd.merge(a, b, on=[pickup_date, pickup_hour], how=left)` at frame level. -/
def mergeRows (a b : DFrame) : DFrame :=
  a.flatMap (fun ra =>
    let ms := b.filter (fun rb =>
      getCol ra "pickup_date" == getCol rb "pickup_date" &&
      getCol ra "pickup_hour" == getCol rb "pickup_hour")
    if ms.isEmpty then [ra ++ [("WeatherCondition", Cell.null)]]
    else ms.map (fun rb => ra ++ [("WeatherCondition", getCol rb "WeatherCondition")]))

/-- `enrich_with_weather` at store level: reads the argument frame and
allocates the merged frame — it never writes the argument reference. -/
def enrich_with_weather_st (st : Store) (dfRef : Nat) (w : Weather) : Store × Nat :=
  st.alloc (mergeRows (st.read dfRef) (weather_df w))

/-- `transform_data` at store level, statement by statement: the merge
allocates `new_df`; each derived-column assignment writes `new_df`'s
reference; `dropna()` and the `needed_col` selection allocate new frames. -/
def transform_data_st (st : Store) (dfRef : Nat) (w : Weather)
    (dist rate : Nat → Q) : Store × Nat :=
  let p1 := enrich_with_weather_st st dfRef w
  let st1 := p1.1
  let nref := p1.2
  let f1 := st1.read nref
  let st2 := st1.write nref (setCol f1 "Distance"
    ((List.range f1.length).map (fun i => Cell.num (round2 (dist i)))))
  let f2 := st2.read nref
  let st3 := st2.write nref (setCol f2 "Actual_Delivery_Time"
    (f2.enum.map (fun p => cellAddConst (cellScale (getCol p.2 "Distance") (rate p.1)) 30)))
  let f3 := st3.read nref
  let st4 := st3.write nref (setCol f3 "Actual_Delivery_Time"
    (f3.map (fun row => cellRound2 (getCol row "Actual_Delivery_Time"))))
  let f4 := st4.read nref
  let st5 := st4.write nref (setCol f4 "Weekday"
    (f4.map (fun row => cellDayName (getCol row "pickup_datetime"))))
  let f5 := st5.read nref
  let st6 := st5.write nref (setCol f5 "Base_Theoretical_Time"
    (f5.map (fun row => cellConstAdd 30 (cellScale (getCol row "Distance") ⟨8, 10⟩))))
  let f6 := st6.read nref
  let st7 := st6.write nref (setCol f6 "Adjustment"
    (f6.map (fun row =>
      cellMul (cellMul (cellMapDict parcel (getCol row "package_type"))
          (cellMapDict zone (getCol row "delivery_zone")))
        (cellFill1 (cellMapDict weather (getCol row "WeatherCondition"))))))
  let f7 := st7.read nref
  let st8 := st7.write nref (setCol f7 "Adjusted_Time"
    (f7.map (fun row => cellMul (getCol row "Base_Theoretical_Time")
      (getCol row "Adjustment"))))
  let f8 := st8.read nref
  let st9 := st8.write nref (setCol f8 "Delay_Threshold"
    (f8.map (fun row => cellScale (getCol row "Adjusted_Time") ⟨12, 10⟩)))
  let f9 := st9.read nref
  let st10 := st9.write nref (setCol f9 "Status"
    (f9.map (fun row => cellStatus (getCol row "Actual_Delivery_Time")
      (getCol row "Delay_Threshold"))))
  let f10 := st10.read nref
  let p2 := st10.alloc (f10.filter (fun row => row.all (fun p => !(p.2 == Cell.null))))
  let f11 := p2.1.read p2.2
  p2.1.alloc (f11.map (fun row => needed_col.map (fun c => (c, getCol row c))))

/-- A concrete store holding one (empty) frame at reference 0. -/
def exStore : Store := ⟨fun _ => [], 1⟩

/-! ### Supporting lemmas -/

lemma nanMul_isSome (a b : Option Q) : (nanMul a b).isSome = (a.isSome && b.isSome) := by
  cases a <;> cases b <;> rfl

lemma filter_eq_find?_toList {α β : Type _} [DecidableEq β] (p : α → Bool) (f : α → β) (k : β)
    (hk : ∀ a, p a = true → f a = k) :
    ∀ l : List α, (l.map f).Nodup → l.filter p = (l.find? p).toList := by
  intro l
  induction l with
  | nil => intro _; rfl
  | cons a t ih =>
    intro hnd
    rw [List.map_cons, List.nodup_cons] at hnd
    by_cases hpa : p a = true
    · have ht : t.filter p = [] := by
        refine List.filter_eq_nil_iff.mpr ?_
        intro b hb hpb
        exact hnd.1 (List.mem_map.mpr ⟨b, hb, by rw [hk b hpb, hk a hpa]⟩)
      simp [List.filter_cons, List.find?_cons, hpa, ht]
    · have hpa' : p a = false := by simpa using hpa
      simp [List.filter_cons, List.find?_cons, hpa', ih hnd.2]

lemma weather_records_cons (e : String × List (String × String)) (t : Weather) :
    weather_records (e :: t)
      = e.2.map (fun q => (e.1, q.1, q.2)) ++ weather_records t := by
  simp [weather_records]

lemma records_date_mem (w : Weather) (wr : String × String × String)
    (h : wr ∈ weather_records w) : wr.1 ∈ w.map Prod.fst := by
  rcases List.mem_flatMap.mp h with ⟨p, hp, hwr⟩
  rcases List.mem_map.mp hwr with ⟨q, _, rfl⟩
  exact List.mem_map.mpr ⟨p, hp, rfl⟩

lemma keys_date_mem (w : Weather) (k : String × String) (h : k ∈ weather_keys w) :
    k.1 ∈ w.map Prod.fst := by
  rcases List.mem_map.mp h with ⟨wr, hwr, rfl⟩
  exact records_date_mem w wr hwr

lemma enrich_cons (r : Delivery) (t : List Delivery) (w : Weather) :
    enrich_with_weather (r :: t) w =
      (if ((weather_records w).filter (fun wr => rowMatches r wr)).isEmpty
       then [withWeather r none]
       else ((weather_records w).filter (fun wr => rowMatches r wr)).map
         (fun wr => withWeather r (some wr.2.2)))
      ++ enrich_with_weather t w := by
  simp [enrich_with_weather]

lemma enrich_row (w : Weather) (hw : (weather_keys w).Nodup) (r : Delivery) :
    (if ((weather_records w).filter (fun wr => rowMatches r wr)).isEmpty
     then [withWeather r none]
     else ((weather_records w).filter (fun wr => rowMatches r wr)).map
       (fun wr => withWeather r (some wr.2.2)))
    = [withWeather r (merge_lookup w r)] := by
  cases hpd : r.pickup_date with
  | none =>
    have hnomatch : ∀ wr ∈ weather_records w, ¬ rowMatches r wr = true := by
      intro wr _ hp
      simp [rowMatches, hpd] at hp
    have hf : (weather_records w).filter (fun wr => rowMatches r wr) = [] :=
      List.filter_eq_nil_iff.mpr hnomatch
    have hfind : (weather_records w).find? (rowMatches r) = none :=
      List.find?_eq_none.mpr hnomatch
    simp [hf, merge_lookup, hfind]
  | some d =>
    have hfl := filter_eq_find?_toList (rowMatches r) (fun wr => (wr.1, wr.2.1))
      (d, r.pickup_hour)
      (fun wr hp => by
        simp [rowMatches, hpd] at hp
        simp [hp.1, hp.2])
      (weather_records w) hw
    cases hfind : (weather_records w).find? (rowMatches r) with
    | none => simp [hfl, hfind, merge_lookup]
    | some wr => simp [hfl, hfind, merge_lookup]

lemma enrich_eq_map (df : List Delivery) (w : Weather) (hw : (weather_keys w).Nodup) :
    enrich_with_weather df w
      = df.map (fun row => withWeather row (merge_lookup w row)) := by
  induction df with
  | nil => rfl
  | cons r t ih =>
    rw [enrich_cons, enrich_row w hw r, ih, List.map_cons, List.singleton_append]

lemma weather_at_cons (e : String × List (String × String)) (t : Weather) (d h : String) :
    weather_at (e :: t) d h
      = if d == e.1 then (e.2.find? (fun q => h == q.1)).map (fun q => q.2)
        else weather_at t d h := by
  by_cases hb : (d == e.1) = true
  · simp [weather_at, List.find?_cons, hb]
  · have hb' : (d == e.1) = false := by simpa using hb
    simp [weather_at, List.find?_cons, hb']

lemma find?_records_eq_weather_at (w : Weather) (hd : (w.map Prod.fst).Nodup) (d h : String) :
    ((weather_records w).find? (fun wr => d == wr.1 && h == wr.2.1)).map (fun wr => wr.2.2)
      = weather_at w d h := by
  induction w with
  | nil => rfl
  | cons e t ih =>
    rw [List.map_cons, List.nodup_cons] at hd
    rw [weather_records_cons, List.find?_append, weather_at_cons,
      List.find?_map (fun q => (e.1, q.1, q.2)) e.2]
    by_cases hb : (d == e.1) = true
    · have hde : d = e.1 := by simpa using hb
      have hpred : ((fun wr => d == wr.1 && h == wr.2.1) ∘ fun q => (e.1, q.1, q.2))
          = fun q : String × String => h == q.1 := by
        funext q
        simp [Function.comp, hb]
      rw [hb, if_pos rfl]
      rw [hpred]
      cases hq : e.2.find? (fun q => h == q.1) with
      | some q => simp
      | none =>
        have hrest : (weather_records t).find? (fun wr => d == wr.1 && h == wr.2.1) = none := by
          refine List.find?_eq_none.mpr ?_
          intro wr hwr hp
          have hwr1 : wr.1 ∈ t.map Prod.fst := records_date_mem t wr hwr
          have hdw : d = wr.1 := by
            have := (Bool.and_eq_true _ _).mp hp
            simpa using this.1
          rw [← hdw, hde] at hwr1
          exact hd.1 hwr1
        simp [hq, hrest]
    · have hb' : (d == e.1) = false := by simpa using hb
      have hpred : ((fun wr => d == wr.1 && h == wr.2.1) ∘ fun q => (e.1, q.1, q.2))
          = fun _ : String × String => false := by
        funext q
        simp [Function.comp, hb']
      rw [hb', if_neg (by simp)]
      rw [hpred]
      have hnone : e.2.find? (fun _ : String × String => false) = none :=
        List.find?_eq_none.mpr (fun q _ hq => by simp at hq)
      simp [hnone, ih hd.2]

lemma merge_lookup_eq (w : Weather) (hd : (w.map Prod.fst).Nodup) (row : Delivery) :
    merge_lookup w row = weather_lookup w row := by
  cases hpd : row.pickup_date with
  | none =>
    have hfind : (weather_records w).find? (rowMatches row) = none :=
      List.find?_eq_none.mpr (fun wr _ hp => by simp [rowMatches, hpd] at hp)
    simp [merge_lookup, weather_lookup, hpd, hfind]
  | some d =>
    have hpr : rowMatches row = fun wr => d == wr.1 && row.pickup_hour == wr.2.1 := by
      funext wr
      simp [rowMatches, hpd]
    rw [merge_lookup, hpr, find?_records_eq_weather_at w hd d row.pickup_hour,
      weather_lookup, hpd]

lemma wf_keys_nodup : ∀ w : Weather, WeatherWF w → (weather_keys w).Nodup := by
  intro w
  induction w with
  | nil => intro _; simp [weather_keys, weather_records]
  | cons e t ih =>
    intro hw
    obtain ⟨hd, hh⟩ := hw
    rw [List.map_cons, List.nodup_cons] at hd
    have hkeys : weather_keys (e :: t)
        = e.2.map (fun q => (e.1, q.1)) ++ weather_keys t := by
      simp [weather_keys, weather_records_cons, List.map_map, Function.comp]
    rw [hkeys]
    refine List.Nodup.append ?_ ?_ ?_
    · have hhn : (e.2.map Prod.fst).Nodup := hh e (List.mem_cons_self e t)
      have hmm : e.2.map (fun q => (e.1, q.1))
          = (e.2.map Prod.fst).map (fun x => (e.1, x)) := by
        simp [List.map_map, Function.comp]
      rw [hmm]
      exact hhn.map (fun a b hab => by simpa using hab)
    · exact ih ⟨hd.2, fun p hp => hh p (List.mem_cons_of_mem e hp)⟩
    · intro x hx1 hx2
      rcases List.mem_map.mp hx1 with ⟨q, _, rfl⟩
      have := keys_date_mem t (e.1, q.1) hx2
      exact hd.1 this

lemma mem_score_rows (df : List Delivery) (w : Weather) (dist rate : Nat → Q)
    (s : Scored) (hs : s ∈ score_rows df w dist rate) :
    ∃ i e, s = score dist rate i e := by
  rcases List.mem_map.mp hs with ⟨p, _, rfl⟩
  exact ⟨p.1, p.2, rfl⟩

lemma Q.blt_eqv_false (a b : Q) (h : Q.eqv a b) : Q.blt b a = false := by
  unfold Q.eqv at h
  simp [Q.blt, ← h]

lemma mem_transform_elim (df : List Delivery) (w : Weather) (dist rate : Nat → Q)
    (r : FinalRow) (hr : r ∈ transform_data df w dist rate) :
    ∃ s, s ∈ score_rows df w dist rate ∧ hasNoNull s = true ∧ projectRow s = r := by
  rcases List.mem_map.mp hr with ⟨s, hs, rfl⟩
  rcases List.mem_filter.mp hs with ⟨hmem, hnn⟩
  exact ⟨s, hmem, hnn, rfl⟩

lemma hasNoNull_fields (s : Scored) (h : hasNoNull s = true) :
    s.pickup_datetime.isSome = true ∧ s.pickup_date.isSome = true ∧
    s.WeatherCondition.isSome = true ∧ s.Weekday.isSome = true ∧
    s.Adjustment.isSome = true ∧ s.Adjusted_Time.isSome = true ∧
    s.Delay_Threshold.isSome = true := by
  simp only [hasNoNull, Bool.and_eq_true] at h
  exact ⟨h.1.1.1.1.1.1, h.1.1.1.1.1.2, h.1.1.1.1.2, h.1.1.1.2, h.1.1.2, h.1.2, h.2⟩

lemma adjustment_isSome_parts (df : List Delivery) (w : Weather) (dist rate : Nat → Q)
    (s : Scored) (hs : s ∈ score_rows df w dist rate)
    (h : s.Adjustment.isSome = true) :
    (parcel s.package_type).isSome = true ∧ (zone s.delivery_zone).isSome = true := by
  rcases mem_score_rows df w dist rate s hs with ⟨i, e, rfl⟩
  simp only [score] at h ⊢
  rw [nanMul_isSome, nanMul_isSome] at h
  simp only [Option.isSome_some, Bool.and_true, Bool.and_eq_true] at h
  exact h

/-! ### Claim theorems, counterexamples and witnesses -/

/-- C1, counterexample: a delivery whose weather join misses but whose
timestamp, package type and delivery zone are all valid is NOT retained in
the final projected output, even though its adjustment factor was computed
with the neutral weather factor 1.0 — the final output is empty. -/
theorem join_miss_retention_cex :
    transform_data (extract_sqlite_data exToDatetime [exRaw1]) exWeatherMiss exDist exRate = [] ∧
    (score_rows (extract_sqlite_data exToDatetime [exRaw1]) exWeatherMiss exDist exRate).map
      (fun s => (s.WeatherCondition, s.pickup_date.isSome, s.pickup_datetime.isSome,
        s.Weekday.isSome, s.Adjustment)) =
      [(none, true, true, true, some ⟨1, 1⟩)] := by decide

/-- C7, counterexample: in a batch containing one malformed timestamp, the
delivery whose timestamp parses (to hour 14) gets pickup_hour "14.0", which
is not the integer-hour rendering "14" used by the weather mapping keys. -/
theorem temporal_key_float_promotion_cex :
    (extract_sqlite_data exToDatetime [exRaw1, exRawBad]).map (fun d => d.pickup_hour)
        = ["14.0", "nan"] ∧
    (extract_sqlite_data exToDatetime [exRaw1, exRawBad]).map (fun d => d.pickup_datetime)
        = [some (PDateTime.mk "2024-04-17" 14 "Wednesday"), none] ∧
    "14.0" ≠ toString (14 : Nat) := by decide

/-- C9: with one malformed timestamp among three deliveries, every row's
pickup_hour is rendered in float form ("14.0", "9.0", "nan"), no key matches
the weather mapping's integer-string hour keys (which do contain "14" and
"9" but not "14.0"), every enriched row's weather condition is unset, and
the final output is empty. -/
theorem single_malformed_timestamp_empties_output :
    ([exRaw1, exRaw2, exRawBad].map (fun r => (exToDatetime r.pickup_datetime).isSome)
        = [true, true, false]) ∧
    exDf9.map (fun d => d.pickup_hour) = ["14.0", "9.0", "nan"] ∧
    ((weather_records exWeather).map (fun wr => wr.2.1)).contains "14" = true ∧
    ((weather_records exWeather).map (fun wr => wr.2.1)).contains "9" = true ∧
    ((weather_records exWeather).map (fun wr => wr.2.1)).contains "14.0" = false ∧
    (enrich_with_weather exDf9 exWeather).map (fun e => e.WeatherCondition)
        = [none, none, none] ∧
    transform_data exDf9 exWeather exDist exRate = [] := by decide

/-- C2: for a well-formed weather mapping, the enrichment equals a per-row
map setting `WeatherCondition` to exactly the mapping's value at the row's
`(pickup_date, pickup_hour)` key (so a present key yields that value and an
absent key leaves the condition unset); and the nested mapping lookup is set
exactly for the keys present in the mapping. -/
theorem enrich_matches_weather_mapping (df : List Delivery) (w : Weather)
    (hw : WeatherWF w) :
    enrich_with_weather df w
      = df.map (fun row => withWeather row (weather_lookup w row)) ∧
    ∀ d h, (weather_at w d h).isSome ↔ (d, h) ∈ weather_keys w := by
  have hkeys := wf_keys_nodup w hw
  constructor
  · rw [enrich_eq_map df w hkeys]
    have hfun : (fun row => withWeather row (merge_lookup w row))
        = fun row => withWeather row (weather_lookup w row) :=
      funext fun row => by rw [merge_lookup_eq w hw.1 row]
    rw [hfun]
  · intro d h
    have hiff : ((weather_records w).find? (fun wr => d == wr.1 && h == wr.2.1)).isSome
        ↔ (d, h) ∈ weather_keys w := by
      rw [List.find?_isSome]
      unfold weather_keys
      rw [List.mem_map]
      constructor
      · rintro ⟨wr, hwr, hp⟩
        refine ⟨wr, hwr, ?_⟩
        have hp' := (Bool.and_eq_true _ _).mp hp
        have h1 : d = wr.1 := by simpa using hp'.1
        have h2 : h = wr.2.1 := by simpa using hp'.2
        simp [h1, h2]
      · rintro ⟨wr, hwr, hk⟩
        refine ⟨wr, hwr, ?_⟩
        have h1 : wr.1 = d := congrArg Prod.fst hk
        have h2 : wr.2.1 = h := congrArg (fun x : String × String => x.2) hk
        simp [h1, h2]
    rw [← find?_records_eq_weather_at w hw.1 d h, ← hiff]
    simp [Option.isSome_map]

/-- Witness for C2 at a concrete two-row batch and full-day weather mapping. -/
theorem enrich_matches_weather_mapping_witness :
    (enrich_with_weather exDf2 exWeather
      = exDf2.map (fun row => withWeather row (weather_lookup exWeather row))) ∧
    ((weather_at exWeather "2024-04-17" "14").isSome
      ↔ ("2024-04-17", "14") ∈ weather_keys exWeather) :=
  ⟨(enrich_matches_weather_mapping exDf2 exWeather (by decide)).1,
   (enrich_matches_weather_mapping exDf2 exWeather (by decide)).2 "2024-04-17" "14"⟩

/-- C5: with at most one weather observation per (date, hour) key, the left
join yields exactly one enriched row per delivery, and the projection after
the null-drop can only shrink the row count. -/
theorem row_conservation (df : List Delivery) (w : Weather) (dist rate : Nat → Q)
    (hw : (weather_keys w).Nodup) :
    (enrich_with_weather df w).length = df.length ∧
    (transform_data df w dist rate).length ≤ df.length := by
  have hlen : (enrich_with_weather df w).length = df.length := by
    rw [enrich_eq_map df w hw, List.length_map]
  refine ⟨hlen, ?_⟩
  have hscore : (score_rows df w dist rate).length = df.length := by
    rw [score_rows, List.length_map, List.enum_length, hlen]
  calc (transform_data df w dist rate).length
      = ((score_rows df w dist rate).filter hasNoNull).length := by
        rw [transform_data, List.length_map]
    _ ≤ (score_rows df w dist rate).length := List.length_filter_le _ _
    _ = df.length := hscore

/-- Witness for C5 at a concrete two-row batch. -/
theorem row_conservation_witness :
    (enrich_with_weather exDf2 exWeather).length = exDf2.length ∧
    (transform_data exDf2 exWeather exDist exRate).length ≤ exDf2.length :=
  row_conservation exDf2 exWeather exDist exRate (by decide)

/-- C3: every scored row's adjustment factor is the product of the package
factor, the zone factor and the weather factor (the latter defaulting to the
neutral 1 when the condition is unset, so an unset-weather row gets the same
factor as a Sunny row); and the three lookup tables hold exactly the
documented values, with Medium x Urban x Rainy = 1.728 exactly. -/
theorem adjustment_factor_tables (df : List Delivery) (w : Weather) (dist rate : Nat → Q) :
    (∀ s ∈ score_rows df w dist rate, ∀ p z,
        parcel s.package_type = some p → zone s.delivery_zone = some z →
        s.Adjustment = some (p * z * weatherFill s.WeatherCondition)) ∧
    parcel "Small" = some ⟨1, 1⟩ ∧ parcel "Medium" = some ⟨12, 10⟩ ∧
    parcel "Large" = some ⟨15, 10⟩ ∧ parcel "X-Large" = some ⟨2, 1⟩ ∧
    parcel "Special" = some ⟨25, 10⟩ ∧
    zone "Urban" = some ⟨12, 10⟩ ∧ zone "Suburban" = some ⟨1, 1⟩ ∧
    zone "Rural" = some ⟨13, 10⟩ ∧ zone "Industrial" = some ⟨9, 10⟩ ∧
    zone "Shopping Center" = some ⟨14, 10⟩ ∧
    weather "Sunny" = some ⟨1, 1⟩ ∧ weather "Cloudy" = some ⟨105, 100⟩ ∧
    weather "Rainy" = some ⟨12, 10⟩ ∧ weather "Windy" = some ⟨11, 10⟩ ∧
    weather "Snowy" = some ⟨18, 10⟩ ∧ weather "Foggy" = some ⟨13, 10⟩ ∧
    weatherFill none = ⟨1, 1⟩ ∧ weatherFill none = weatherFill (some "Sunny") ∧
    nanMul (nanMul (parcel "Medium") (zone "Urban")) (some (weatherFill (some "Rainy")))
      = some ⟨1728, 1000⟩ := by
  refine ⟨?_, by decide⟩
  intro s hs p z hp hz
  rcases mem_score_rows df w dist rate s hs with ⟨i, e, rfl⟩
  simp only [score] at hp hz ⊢
  rw [hp, hz]
  rfl

/-- Witness for C3: the Medium/Urban/Sunny row's factor is the table product. -/
theorem adjustment_factor_tables_witness :
    exScoredMedium.Adjustment
      = some (⟨12, 10⟩ * ⟨12, 10⟩ * weatherFill exScoredMedium.WeatherCondition) :=
  (adjustment_factor_tables exDfMedium exWeather exDist exRate).1
    exScoredMedium (by decide) ⟨12, 10⟩ ⟨12, 10⟩ (by decide) (by decide)

/-- C4: for every scored row whose adjustment factor is set, the threshold is
base x factor x 1.2 with base = 30 + distance x 0.8, the row is Delayed exactly
when the actual time strictly exceeds the threshold, and exact boundary
equality yields On-time. -/
theorem delay_threshold_status (df : List Delivery) (w : Weather) (dist rate : Nat → Q)
    (s : Scored) (hs : s ∈ score_rows df w dist rate) (a : Q)
    (ha : s.Adjustment = some a) :
    s.Base_Theoretical_Time = (30 : Q) + s.Distance * ⟨8, 10⟩ ∧
    s.Adjusted_Time = some (s.Base_Theoretical_Time * a) ∧
    s.Delay_Threshold = some (s.Base_Theoretical_Time * a * ⟨12, 10⟩) ∧
    (s.Status = "Delayed"
      ↔ Q.blt (s.Base_Theoretical_Time * a * ⟨12, 10⟩) s.Actual_Delivery_Time = true) ∧
    (Q.eqv s.Actual_Delivery_Time (s.Base_Theoretical_Time * a * ⟨12, 10⟩)
      → s.Status = "On-time") := by
  rcases mem_score_rows df w dist rate s hs with ⟨i, e, rfl⟩
  simp only [score] at ha ⊢
  rw [ha]
  simp only [Option.map_some']
  refine ⟨trivial, trivial, trivial, ?_, ?_⟩
  · constructor
    · intro hst
      by_contra hb
      have hb' : Q.blt (((30 : Q) + round2 (dist i) * ⟨8, 10⟩) * a * ⟨12, 10⟩)
          (round2 (round2 (dist i) * rate i + 30)) = false := by
        simpa using hb
      simp [hb'] at hst
    · intro hb
      simp [hb]
  · intro heq
    have hf := Q.blt_eqv_false _ _ heq
    simp [hf]

/-- Witness for C4 at the Medium/Urban/Sunny row, whose factor is 1.44. -/
theorem delay_threshold_status_witness :
    exScoredMedium.Base_Theoretical_Time = (30 : Q) + exScoredMedium.Distance * ⟨8, 10⟩ ∧
    exScoredMedium.Adjusted_Time
      = some (exScoredMedium.Base_Theoretical_Time * ⟨144, 100⟩) ∧
    exScoredMedium.Delay_Threshold
      = some (exScoredMedium.Base_Theoretical_Time * ⟨144, 100⟩ * ⟨12, 10⟩) ∧
    (exScoredMedium.Status = "Delayed"
      ↔ Q.blt (exScoredMedium.Base_Theoretical_Time * ⟨144, 100⟩ * ⟨12, 10⟩)
          exScoredMedium.Actual_Delivery_Time = true) ∧
    (Q.eqv exScoredMedium.Actual_Delivery_Time
        (exScoredMedium.Base_Theoretical_Time * ⟨144, 100⟩ * ⟨12, 10⟩)
      → exScoredMedium.Status = "On-time") :=
  delay_threshold_status exDfMedium exWeather exDist exRate exScoredMedium (by decide)
    ⟨144, 100⟩ (by decide)

/-- C6: every row of the final projected output has its weather condition,
timestamp, weekday and date set, and arises from a scored row that survived
the null-drop with every derived column populated. -/
theorem final_rows_fully_populated (df : List Delivery) (w : Weather)
    (dist rate : Nat → Q) (r : FinalRow) (hr : r ∈ transform_data df w dist rate) :
    r.WeatherCondition.isSome = true ∧ r.pickup_datetime.isSome = true ∧
    r.Weekday.isSome = true ∧ r.pickup_date.isSome = true ∧
    ∃ s, s ∈ score_rows df w dist rate ∧ hasNoNull s = true ∧ projectRow s = r ∧
      s.Adjustment.isSome = true ∧ s.Adjusted_Time.isSome = true ∧
      s.Delay_Threshold.isSome = true := by
  rcases mem_transform_elim df w dist rate r hr with ⟨s, hmem, hnn, rfl⟩
  have hf := hasNoNull_fields s hnn
  refine ⟨?_, ?_, ?_, ?_, s, hmem, hnn, rfl, hf.2.2.2.2.1, hf.2.2.2.2.2.1,
    hf.2.2.2.2.2.2⟩
  · simpa [projectRow] using hf.2.2.1
  · simpa [projectRow] using hf.1
  · simpa [projectRow] using hf.2.2.2.1
  · simpa [projectRow] using hf.2.1

/-- Witness for C6 at the single surviving row of the Medium/Urban batch. -/
theorem final_rows_fully_populated_witness :
    exFinalMedium.WeatherCondition.isSome = true ∧
    exFinalMedium.pickup_datetime.isSome = true ∧
    exFinalMedium.Weekday.isSome = true ∧ exFinalMedium.pickup_date.isSome = true ∧
    ∃ s, s ∈ score_rows exDfMedium exWeather exDist exRate ∧ hasNoNull s = true ∧
      projectRow s = exFinalMedium ∧ s.Adjustment.isSome = true ∧
      s.Adjusted_Time.isSome = true ∧ s.Delay_Threshold.isSome = true :=
  final_rows_fully_populated exDfMedium exWeather exDist exRate exFinalMedium (by decide)

/-- C1 (amended): a scored row whose weather condition is unset does get the
neutral weather factor 1 in its adjustment factor, but it fails the
null-drop, so its projection is absent from the final output. -/
theorem join_miss_neutral_but_dropped (df : List Delivery) (w : Weather)
    (dist rate : Nat → Q) (s : Scored) (hs : s ∈ score_rows df w dist rate)
    (hmiss : s.WeatherCondition = none) :
    s.Adjustment = nanMul (nanMul (parcel s.package_type) (zone s.delivery_zone))
      (some ⟨1, 1⟩) ∧
    hasNoNull s = false ∧
    projectRow s ∉ transform_data df w dist rate := by
  rcases mem_score_rows df w dist rate s hs with ⟨i, e, rfl⟩
  have hmiss2 : e.WeatherCondition = none := by simpa [score] using hmiss
  refine ⟨?_, ?_, ?_⟩
  · simp [score, hmiss2, weatherFill]
  · simp [hasNoNull, score, hmiss2]
  · intro hmem
    rcases mem_transform_elim df w dist rate _ hmem with ⟨s2, _, hnn2, hproj⟩
    have h2 : s2.WeatherCondition = none := by
      have hcc := congrArg FinalRow.WeatherCondition hproj
      simpa [projectRow, score, hmiss2] using hcc
    have h3 := (hasNoNull_fields s2 hnn2).2.2.1
    rw [h2] at h3
    simp at h3

/-- Witness for C1 (amended) at the join-miss batch. -/
theorem join_miss_neutral_but_dropped_witness :
    exScoredMiss.Adjustment
      = nanMul (nanMul (parcel exScoredMiss.package_type)
          (zone exScoredMiss.delivery_zone)) (some ⟨1, 1⟩) ∧
    hasNoNull exScoredMiss = false ∧
    projectRow exScoredMiss ∉ transform_data exDfMiss exWeatherMiss exDist exRate :=
  join_miss_neutral_but_dropped exDfMiss exWeatherMiss exDist exRate exScoredMiss
    (by decide) (by decide)

/-- C8: a scored row whose package type or delivery zone is outside the fixed
enumerations has an unset adjustment factor and fails the null-drop, so its
projection is absent from the final output, while the left join itself keeps
one enriched row per delivery whatever its categories. -/
theorem unknown_category_dropped (df : List Delivery) (w : Weather)
    (dist rate : Nat → Q) (s : Scored) (hs : s ∈ score_rows df w dist rate)
    (hcat : parcel s.package_type = none ∨ zone s.delivery_zone = none) :
    s.Adjustment = none ∧ hasNoNull s = false ∧
    projectRow s ∉ transform_data df w dist rate ∧
    ∀ row ∈ df, ∃ e2, e2 ∈ enrich_with_weather df w ∧
      e2.delivery_id = row.delivery_id ∧ e2.package_type = row.package_type := by
  have hadj : s.Adjustment = none := by
    rcases mem_score_rows df w dist rate s hs with ⟨i, e, rfl⟩
    simp only [score] at hcat ⊢
    rcases hcat with hc | hc
    · rw [hc]
      cases zone e.delivery_zone <;> rfl
    · rw [hc]
      cases parcel e.package_type <;> rfl
  refine ⟨hadj, ?_, ?_, ?_⟩
  · simp [hasNoNull, hadj]
  · intro hmem
    rcases mem_transform_elim df w dist rate _ hmem with ⟨s2, hmem2, hnn2, hproj⟩
    have hparts := adjustment_isSome_parts df w dist rate s2 hmem2
      (hasNoNull_fields s2 hnn2).2.2.2.2.1
    have hpk : s2.package_type = s.package_type := congrArg FinalRow.package_type hproj
    have hzn : s2.delivery_zone = s.delivery_zone := congrArg FinalRow.delivery_zone hproj
    rcases hcat with hc | hc
    · have h1 := hparts.1
      rw [hpk, hc] at h1
      simp at h1
    · have h1 := hparts.2
      rw [hzn, hc] at h1
      simp at h1
  · intro row hrow
    have hbranch : ∃ e2 ∈ (if ((weather_records w).filter
          (fun wr => rowMatches row wr)).isEmpty
        then [withWeather row none]
        else ((weather_records w).filter (fun wr => rowMatches row wr)).map
          (fun wr => withWeather row (some wr.2.2))),
        e2.delivery_id = row.delivery_id ∧ e2.package_type = row.package_type := by
      by_cases hemp : ((weather_records w).filter
          (fun wr => rowMatches row wr)).isEmpty = true
      · refine ⟨withWeather row none, ?_, rfl, rfl⟩
        simp [hemp]
      · cases hms : (weather_records w).filter (fun wr => rowMatches row wr) with
        | nil => rw [hms] at hemp; simp at hemp
        | cons wr tl =>
          refine ⟨withWeather row (some wr.2.2), ?_, rfl, rfl⟩
          rw [if_neg (by simp)]
          exact List.mem_map.mpr ⟨wr, List.mem_cons_self wr tl, rfl⟩
    rcases hbranch with ⟨e2, he2, hid, hpk2⟩
    refine ⟨e2, ?_, hid, hpk2⟩
    simp only [enrich_with_weather]
    exact List.mem_flatMap.mpr ⟨row, hrow, he2⟩

/-- Witness for C8 at the unknown-package batch. -/
theorem unknown_category_dropped_witness :
    exScoredUnknown.Adjustment = none ∧ hasNoNull exScoredUnknown = false ∧
    projectRow exScoredUnknown ∉ transform_data exDfUnknown exWeather exDist exRate ∧
    ∀ row ∈ exDfUnknown, ∃ e2, e2 ∈ enrich_with_weather exDfUnknown exWeather ∧
      e2.delivery_id = row.delivery_id ∧ e2.package_type = row.package_type :=
  unknown_category_dropped exDfUnknown exWeather exDist exRate exScoredUnknown
    (by decide) (Or.inl (by decide))

/-- C7 (amended): when every timestamp in the extracted batch parses, each
row's pickup_hour is the decimal numeral of its integer hour-of-day (0..23,
the format of the weather mapping's hour keys) and its pickup_date is the
timestamp's calendar-date string. -/
theorem temporal_key_all_parse (to_datetime : String → Option PDateTime)
    (rows : List RawDelivery)
    (hall : ∀ r ∈ rows, (to_datetime r.pickup_datetime).isSome = true) :
    ∀ d ∈ extract_sqlite_data to_datetime rows, ∃ dt : PDateTime,
      d.pickup_datetime = some dt ∧ d.pickup_hour = toString dt.hour.val ∧
      dt.hour.val ≤ 23 ∧ d.pickup_date = some dt.date := by
  intro d hd
  have hany : (rows.map (fun r => (r, to_datetime r.pickup_datetime))).any
      (fun p => p.2.isNone) = false := by
    rw [List.any_eq_false]
    intro p hp
    rcases List.mem_map.mp hp with ⟨r, hr, rfl⟩
    rcases Option.isSome_iff_exists.mp (hall r hr) with ⟨dt, hdt⟩
    simp [hdt]
  simp only [extract_sqlite_data] at hd
  rw [hany] at hd
  rcases List.mem_map.mp hd with ⟨p, hp, rfl⟩
  rcases List.mem_map.mp hp with ⟨r, hr, rfl⟩
  rcases Option.isSome_iff_exists.mp (hall r hr) with ⟨dt, hdt⟩
  refine ⟨dt, ?_, ?_, ?_, ?_⟩
  · simpa using hdt
  · simp [hdt, hourCol]
  · have := dt.hour.isLt
    omega
  · simp [hdt]

/-- Witness for C7 (amended) at a one-row batch whose timestamp parses. -/
theorem temporal_key_all_parse_witness :
    ∃ dt : PDateTime,
      (extract_sqlite_data exToDatetime [exRaw1]).headI.pickup_datetime = some dt ∧
      (extract_sqlite_data exToDatetime [exRaw1]).headI.pickup_hour
        = toString dt.hour.val ∧
      dt.hour.val ≤ 23 ∧
      (extract_sqlite_data exToDatetime [exRaw1]).headI.pickup_date = some dt.date :=
  temporal_key_all_parse exToDatetime [exRaw1] (by decide)
    (extract_sqlite_data exToDatetime [exRaw1]).headI (by decide)

/-- C10: for any valid reference, `transform_data` (and its
`enrich_with_weather` step) leave the frame held at the argument reference
unchanged — every column assignment targets the freshly allocated merged
frame, and the drop/projection steps allocate further fresh frames. -/
theorem transform_preserves_input_frame (st : Store) (dfRef : Nat) (w : Weather)
    (dist rate : Nat → Q) (h : dfRef < st.next) :
    (transform_data_st st dfRef w dist rate).1.read dfRef = st.read dfRef ∧
    (enrich_with_weather_st st dfRef w).1.read dfRef = st.read dfRef := by
  have h0 : dfRef ≠ st.next := by omega
  have h1 : dfRef ≠ st.next + 1 := by omega
  have h2 : dfRef ≠ st.next + 2 := by omega
  constructor <;>
    simp [transform_data_st, enrich_with_weather_st, Store.read, Store.write,
      Store.alloc, h0, h1, h2]

/-- Witness for C10 at a concrete store. -/
theorem transform_preserves_input_frame_witness :
    (transform_data_st exStore 0 exWeather exDist exRate).1.read 0 = exStore.read 0 ∧
    (enrich_with_weather_st exStore 0 exWeather).1.read 0 = exStore.read 0 :=
  transform_preserves_input_frame exStore 0 exWeather exDist exRate (by decide)

end SuperCourier
